import Mathlib

/-!
Verification of the indexation-checking core of the seo-indexation-checker
repository: sitemap harvesting, checking-method selection and the three
checking backends, as implemented in `src/indexation_checker.py`,
`src/search_console_checker.py` and `src/indexed_api_checker.py`.

The Python source is shallowly embedded: network traffic is modelled by
oracle functions (a URL maps to the response the network would give),
stateful loops become structural recursion, and Python exceptions caught
around a unit of work become `Option` results of the corresponding oracle.
The pipeline entry point `check_website_indexation` contains no try/except
of its own, so an exception raised at one of its backend call sites — in
particular the TypeError from binding the undeclared `stop_event` keyword
of the Search-Console check method — escapes the call; it is therefore
embedded as an `Except`-valued function whose `error` case is that
uncaught exception.
-/

deriving instance DecidableEq for Except

namespace SeoIdx

/-! ## String primitives mirroring the Python string operations used -/

/-- Decides whether the second list is a prefix of the first, character by
character (helper for Python's substring test). -/
def listStartsWith : List Char → List Char → Bool
  | _, [] => true
  | [], _ :: _ => false
  | a :: as, b :: bs => a == b && listStartsWith as bs

/-- Helper for `strContains`: does `pat` occur in the haystack at some
position? -/
def containsAux : List Char → List Char → Bool
  | [], pat => pat.isEmpty
  | h :: t, pat => listStartsWith (h :: t) pat || containsAux t pat

/-- Python's substring test `pat in hay` on strings. -/
def strContains (hay pat : String) : Bool :=
  containsAux hay.data pat.data

/-- Python's `s.endswith(suf)`. -/
def strEndsWith (s suf : String) : Bool :=
  listStartsWith s.data.reverse suf.data.reverse

/-- Whitespace characters removed by Python's `str.strip()` (ASCII range,
which is all the sources ever feed it). -/
def isPySpace (c : Char) : Bool :=
  c == ' ' || c == '\t' || c == '\n' || c == '\r' || c == '\x0b' || c == '\x0c'

/-- Python's `url.strip()` as used in `search_console_checker.py` line 117:
strips leading and trailing whitespace. -/
def pyStrip (s : String) : String :=
  ⟨((s.data.dropWhile isPySpace).reverse.dropWhile isPySpace).reverse⟩

/-- Python's `clean_url.rstrip('/')` from `search_console_checker.py`
line 125: removes every trailing slash, not just one. -/
def pyRstripSlash (s : String) : String :=
  ⟨(s.data.reverse.dropWhile (· == '/')).reverse⟩

/-! ## urllib.parse netloc extraction (`get_base_domain`) -/

/-- Characters allowed in a URL scheme by `urllib.parse` (letters, digits,
`+`, `-`, `.`). -/
def isSchemeChar (c : Char) : Bool :=
  c.isAlpha || c.isDigit || c == '+' || c == '-' || c == '.'

/-- The netloc component computed by CPython's `urlparse`, as used by
`get_base_domain` in `indexation_checker.py` lines 150-154: tab/CR/LF
bytes are removed, a leading `scheme:` is stripped when the text before the
first colon is a valid scheme, and the netloc is nonempty only when the
remainder starts with `//` (it then runs up to the first `/`, `?` or `#`).
Bracket (IPv6 literal) validation is not modelled; no input here uses it. -/
def get_base_domain (url : String) : String :=
  let cs := url.data.filter (fun c => !(c == '\t' || c == '\r' || c == '\n'))
  let pre := cs.takeWhile (· ≠ ':')
  let rest :=
    if pre.length < cs.length && 0 < pre.length &&
        (match pre with | c :: _ => c.isAlpha | [] => false) && pre.all isSchemeChar
    then cs.drop (pre.length + 1) else cs
  match rest with
  | '/' :: '/' :: r => ⟨r.takeWhile (fun c => !(c == '/' || c == '?' || c == '#'))⟩
  | _ => ""

/-! ## Data model -/

/-- One normalized result record, the dictionary
`{'url':…, 'status':…, 'method':…, 'check_date':…}` built by every
backend. -/
structure CheckResult where
  url : String
  status : String
  method : String
  check_date : String
deriving DecidableEq, Repr

/-- A parsed sitemap XML document as traversed by the source: the root's
children (`for elem in root`), each a list of `(tag, text)` grandchildren
(`for child in elem`). -/
structure SitemapXml where
  entries : List (List (String × String))
deriving DecidableEq, Repr

/-- A network oracle for sitemap fetching: the parsed XML a GET of the URL
would yield, or `none` when the request raises, returns non-2xx
(`raise_for_status`) or the body fails XML parsing. -/
abbrev SitemapNet := String → Option SitemapXml

/-- The `<loc>` texts collected by the nested loops of
`fetch_urls_from_sitemap` / `fetch_urls_from_sitemap_index`: every
grandchild whose tag ends in `loc`, in document order. -/
def locTexts (x : SitemapXml) : List String :=
  (x.entries.map (fun elem =>
    elem.filterMap (fun c => if strEndsWith c.1 "loc" then some c.2 else none))).flatten

/-! ## SitemapHarvester (`indexation_checker.py` lines 22-93) -/

/-- Embedding of `fetch_urls_from_sitemap` (lines 67-93): on any fetch or
parse error the `except` branch returns `[]`; otherwise all `<loc>` texts. -/
def fetch_urls_from_sitemap (net : SitemapNet) (sitemap_url : String) : List String :=
  match net sitemap_url with
  | none => []
  | some x => locTexts x

/-- The sub-sitemap URLs kept by `fetch_urls_from_sitemap_index` after the
exclusion filter (lines 42-49): a sitemap URL is dropped when any exclude
pattern occurs in it as a substring. -/
def sub_sitemaps (x : SitemapXml) (exclude_sitemaps : List String) : List String :=
  (locTexts x).filter (fun su => !(exclude_sitemaps.any (fun e => strContains su e)))

/-- Embedding of `fetch_urls_from_sitemap_index` (lines 22-65): fetch the
index, keep non-excluded sub-sitemap URLs, fetch each in order and
concatenate; any error on the index itself returns `[]`. -/
def fetch_urls_from_sitemap_index (net : SitemapNet) (sitemap_index_url : String)
    (exclude_sitemaps : List String) : List String :=
  match net sitemap_index_url with
  | none => []
  | some x => ((sub_sitemaps x exclude_sitemaps).map (fetch_urls_from_sitemap net)).flatten

/-! ## Search-Console backend (`search_console_checker.py` lines 70-144) -/

/-- The `alt_url` computed at line 125 of `search_console_checker.py`:
`clean_url.rstrip('/') if clean_url.endswith('/') else clean_url + '/'`.
Note `rstrip('/')` removes every trailing slash. -/
def gsc_alt_url (clean_url : String) : String :=
  if strEndsWith clean_url "/" then pyRstripSlash clean_url else clean_url ++ "/"

/-- Per-URL classification of the Search-Console backend
(lines 115-138): strip the URL; in the reported-page set → INDEXED;
else the `alt_url` variant in the set → INDEXED (alt URL); else
NOT IN SEARCH CONSOLE DATA. The emitted record carries the stripped URL. -/
def sc_result_for (indexed_pages : List String) (now : String) (url : String) : CheckResult :=
  let clean_url := pyStrip url
  if indexed_pages.contains clean_url then
    ⟨clean_url, "INDEXED", "Search Console Data", now⟩
  else if indexed_pages.contains (gsc_alt_url clean_url) then
    ⟨clean_url, "INDEXED", "Search Console Data (alt URL)", now⟩
  else
    ⟨clean_url, "NOT IN SEARCH CONSOLE DATA", "Search Console Data", now⟩

/-- A reporting-API oracle: for a property URL, the list of `page` keys of
the `searchanalytics().query` response rows (the set `indexed_pages` is
built from them), or `none` when the request raises (the method's `except`
branch then returns `[]`). An absent `rows` field is `some []`. -/
abbrev GscQuery := String → Option (List String)

/-- Embedding of `SearchConsoleChecker.check_indexation_status`
(lines 70-144). `service` models `self.service` being initialized; the
date-range arithmetic (`days_back`) only parametrizes the query and is
absorbed into the oracle. Note: the method declares no `stop_event`
parameter; its per-URL loop never consults any cancellation signal (see the
keyword-binding model below). -/
def SearchConsoleChecker_check_indexation_status (service : Bool) (query : GscQuery)
    (site_url : String) (urls_to_check : List String) (now : String) : List CheckResult :=
  if !service then []
  else
    match query site_url with
    | none => []
    | some rows => urls_to_check.map (sc_result_for rows now)

/-- Parameter names declared by `SearchConsoleChecker.check_indexation_status`
(`search_console_checker.py` line 70); the method has no `**kwargs`. -/
def scCheckParamNames : List String := ["self", "site_url", "urls_to_check", "days_back"]

/-- Parameter names declared by `IndexedAPIChecker.check_indexation_status`
(`indexed_api_checker.py` line 47). -/
def indexedApiCheckParamNames : List String := ["self", "urls", "stop_event"]

/-- Keyword argument names used at the call sites
`gsc_checker.check_indexation_status(gsc_property_url, all_urls,
stop_event=stop_event)` (`indexation_checker.py` lines 234 and 269). -/
def gscCallSiteKwargNames : List String := ["stop_event"]

/-- Python keyword-argument binding for a function without `**kwargs`:
the call succeeds only when every keyword names a declared parameter;
otherwise it raises `TypeError` before the body runs. -/
def pythonKwBindingOk (paramNames kwargNames : List String) : Bool :=
  kwargNames.all (fun k => paramNames.contains k)

/-! ## Bulk-API backend (`indexed_api_checker.py` lines 47-71) -/

/-- Embedding of `IndexedAPIChecker.check_indexation_status`: no key → `[]`;
no URLs → `[]`; otherwise the not-yet-configured endpoint stub also returns
`[]` (deliberately, to trigger the Google-Search fallback). Python
truthiness of the key: an empty-string key counts as no key. -/
def IndexedAPIChecker_check_indexation_status (api_key : Option String)
    (urls : List String) : List CheckResult :=
  match api_key with
  | none => []
  | some k =>
    if k.isEmpty then []
    else if urls.isEmpty then []
    else []

/-! ## Scraped-search-engine backend (`indexation_checker.py` lines 95-140,
240-259, 290-317) -/

/-- A search oracle: the `(status, method)` pair that
`check_indexation_google_search(url)` would produce for a URL (its value is
fully determined by the network response; every exception path inside the
function already yields an `("ERROR", …)` pair, so the oracle is total). -/
abbrev GoogleOracle := String → String × String

/-- Delay (tenths of a second) slept by the `google_search`-preferred loop
(lines 255-259): 2.0 s every 20th request, otherwise 0.5 s; independent of
the per-URL status. -/
def preferred_loop_delay (i : Nat) : Nat :=
  if i % 20 == 0 then 20 else 5

/-- Delay (tenths of a second) slept by the auto-mode fallback loop
(lines 309-317): 10 s right after a `RATE LIMITED` status, else 3 s every
10th request, else 1.5 s. -/
def auto_loop_delay (status : String) (i : Nat) : Nat :=
  if strContains status "RATE LIMITED" then 100
  else if i % 10 == 0 then 30
  else 15

/-- The cooperative cancellation signal: successive values of
`stop_event.is_set()`, indexed by the (1-based) loop iteration at which the
signal is observed. -/
abbrev CancelSig := Nat → Bool

/-- The per-URL loop of the explicitly-selected `google_search` branch
(lines 242-259): observe the signal at the top of iteration `i`, stop if
set, else query, record and sleep `preferred_loop_delay i`. Returns the
accumulated records and the slept delays. -/
def google_search_loop_preferred (g : GoogleOracle) (now : String) (sig : CancelSig) :
    Nat → List String → List CheckResult × List Nat
  | _, [] => ([], [])
  | i, url :: rest =>
    if sig i then ([], [])
    else
      let sm := g url
      let tail := google_search_loop_preferred g now sig (i + 1) rest
      (⟨url, sm.1, sm.2, now⟩ :: tail.1, preferred_loop_delay i :: tail.2)

/-- The per-URL loop of the auto-mode Google-Search fallback
(lines 291-317): same structure, but the delay is the adaptive
`auto_loop_delay` of the status just produced. -/
def google_search_loop_auto (g : GoogleOracle) (now : String) (sig : CancelSig) :
    Nat → List String → List CheckResult × List Nat
  | _, [] => ([], [])
  | i, url :: rest =>
    if sig i then ([], [])
    else
      let sm := g url
      let tail := google_search_loop_auto g now sig (i + 1) rest
      (⟨url, sm.1, sm.2, now⟩ :: tail.1, auto_loop_delay sm.1 i :: tail.2)

/-! ## Method selection and dispatch (`check_website_indexation`,
`indexation_checker.py` lines 156-319) -/

/-- The website configuration dictionary fields read by
`check_website_indexation`; `none` models an absent key, with the `.get`
defaults applied in the body exactly where the source applies them. -/
structure Config where
  name : String
  sitemap_url : Option String
  sitemap_urls : Option (List String)
  exclude_sitemaps : List String
  max_urls : Option Nat
  indexed_api_key : Option String
  checking_method : Option String

/-- The external world of one run: the sitemap network, the Search-Console
client state (`service` initialized, its property list, the reporting
query), the per-URL Google-search outcome, and the timestamp. -/
structure Env where
  net : SitemapNet
  gscService : Bool
  gscProperties : List String
  gscQuery : GscQuery
  google : GoogleOracle
  now : String

/-- The `stop_event` argument: its value at the pre-dispatch check
(line 204) and at each per-URL loop observation. -/
structure Cancel where
  atStart : Bool
  inLoop : CancelSig

/-- Observation of `stop_event and stop_event.is_set()` inside a loop; a
`None` event never stops. -/
def sigOf : Option Cancel → CancelSig
  | none => fun _ => false
  | some c => c.inLoop

/-- Observation of `stop_event and stop_event.is_set()` at line 204. -/
def stopAtStart : Option Cancel → Bool
  | none => false
  | some c => c.atStart

/-- Python truthiness of an optional string (`if gsc_property_url:`,
`if indexed_api_key:`): `None` and the empty string are falsy. -/
def py_truthy : Option String → Bool
  | none => false
  | some s => !s.isEmpty

/-- The harvest phase (lines 182-197): a `sitemap_url` key wins and goes
through the index expansion; otherwise each of `sitemap_urls` is fetched
directly; with neither key, no URLs. -/
def harvest_urls (net : SitemapNet) (cfg : Config) : List String :=
  match cfg.sitemap_url with
  | some su => fetch_urls_from_sitemap_index net su cfg.exclude_sitemaps
  | none =>
    match cfg.sitemap_urls with
    | some sus => (sus.map (fetch_urls_from_sitemap net)).flatten
    | none => []

/-- The URL list after the `max_urls` cap (lines 210-214, default 100):
truncated to the first `max_urls` URLs only when the harvest exceeds it. -/
def limited_urls (env : Env) (cfg : Config) : List String :=
  let all := harvest_urls env.net cfg
  let m := cfg.max_urls.getD 100
  if all.length > m then all.take m else all

/-- `website_domain` (line 217): base domain of the first URL to check,
or `""` when there is none. -/
def website_domain (env : Env) (cfg : Config) : String :=
  match limited_urls env cfg with
  | [] => ""
  | u :: _ => get_base_domain u

/-- The domain-match test of lines 222-224:
`website_domain in prop_domain or prop_domain in website_domain`. -/
def gsc_property_match (wd prop_url : String) : Bool :=
  let prop_domain := get_base_domain prop_url
  strContains prop_domain wd || strContains wd prop_domain

/-- `gsc_property_url` after the matching loop of lines 218-226: the first
property whose domain matches, searched only when the client initialized. -/
def matched_gsc_property (env : Env) (cfg : Config) : Option String :=
  if env.gscService then
    env.gscProperties.find? (gsc_property_match (website_domain env cfg))
  else none

/-- The backends, for instrumenting which checker a run invoked. -/
inductive Backend
  | gsc
  | indexedApi
  | googleSearch
deriving DecidableEq, Repr

/-- One backend invocation of a run: the backend and the URL list handed to
it. -/
structure Invocation where
  backend : Backend
  urls : List String
deriving DecidableEq, Repr

/-- Payload of a completed (non-raising) run of the embedded
`check_website_indexation`: the result list the Python function returns,
plus the trace of backend invocations the run performed (instrumentation
of the calls at lines 234, 238, 248, 269, 279 and 300). -/
structure RunOutput where
  results : List CheckResult
  invocations : List Invocation
deriving DecidableEq, Repr

/-- The TypeError raised when keyword binding of the Search-Console check
call fails (the method declares no `stop_event` parameter). -/
def stopEventTypeError : String :=
  "TypeError: check_indexation_status() got an unexpected keyword argument stop_event"

/-- The pipeline's call of the Search-Console backend, as issued at
`indexation_checker.py` lines 234 and 269: the call passes the keyword
`stop_event`, Python binds keywords before running the body, and since
`SearchConsoleChecker.check_indexation_status` declares no such parameter
(and no kwargs catch-all) the binding fails and the call raises TypeError
without the method body ever running. Were the binding to succeed, the
method's results would be returned. -/
def call_sc_check (env : Env) (site_url : String) (urls : List String) :
    Except String (List CheckResult) :=
  if pythonKwBindingOk scCheckParamNames gscCallSiteKwargNames then
    Except.ok (SearchConsoleChecker_check_indexation_status env.gscService env.gscQuery
      site_url urls env.now)
  else
    Except.error stopEventTypeError

/-- The IndexedAPI results of the auto branch (lines 276-279): attempted
only when the previous results are empty and a key is configured. The call
site also passes `stop_event=stop_event`, but `IndexedAPIChecker`'s method
declares that parameter, so the keyword binds and the call cannot raise. -/
def api_results_auto (env : Env) (cfg : Config) : List CheckResult :=
  if py_truthy cfg.indexed_api_key then
    IndexedAPIChecker_check_indexation_status cfg.indexed_api_key (limited_urls env cfg)
  else []

/-- Invocations of the auto branch through the IndexedAPI attempt, given
those performed up to and including the Search-Console attempt. -/
def auto_inv2_of (env : Env) (cfg : Config) (inv1 : List Invocation) : List Invocation :=
  if py_truthy cfg.indexed_api_key then
    inv1 ++ [⟨.indexedApi, limited_urls env cfg⟩]
  else inv1

/-- Continuation of the auto-mode branch after the Search-Console attempt
(lines 271-317), given that attempt's results (`[]` when no property was
truthy and no call was made) and the invocations so far: on empty results
IndexedAPI when a key is configured; on empty results again, the
Google-Search fallback loop, whose output is final. -/
def auto_after_sc (env : Env) (cfg : Config) (stop : Option Cancel)
    (scRes : List CheckResult) (inv1 : List Invocation) : RunOutput :=
  if !scRes.isEmpty then ⟨scRes, inv1⟩
  else if !(api_results_auto env cfg).isEmpty then
    ⟨api_results_auto env cfg, auto_inv2_of env cfg inv1⟩
  else
    ⟨(google_search_loop_auto env.google env.now (sigOf stop) 1 (limited_urls env cfg)).1,
      auto_inv2_of env cfg inv1 ++ [⟨.googleSearch, limited_urls env cfg⟩]⟩

/-- The auto-mode `else` branch of lines 261-317: when `gsc_property_url`
is truthy the Search-Console call at line 269 is issued — which raises
TypeError (unbound `stop_event` keyword), aborting the run — otherwise the
attempt is skipped with empty results and the branch continues with
IndexedAPI and the Google-Search fallback. -/
def auto_dispatch (env : Env) (cfg : Config) (stop : Option Cancel) :
    Except String RunOutput :=
  if py_truthy (matched_gsc_property env cfg) then
    (call_sc_check env ((matched_gsc_property env cfg).getD "") (limited_urls env cfg)).map
      (fun scRes => auto_after_sc env cfg stop scRes [⟨.gsc, limited_urls env cfg⟩])
  else
    Except.ok (auto_after_sc env cfg stop [] [])

/-- Embedding of `check_website_indexation` (lines 156-319): harvest, the
empty-harvest and stop-signal early returns, the `max_urls` cap, then the
`preferred_method` dispatch (`gsc` / `indexed_api` / `google_search`, any
other value falling into the auto-mode `else` branch). The function has no
try/except, so an exception raised at a backend call site escapes the
whole call; that outcome is `Except.error`, and `Except.ok` carries the
returned result list with the trace of backend invocations performed. -/
def check_website_indexation (env : Env) (cfg : Config) (stop : Option Cancel) :
    Except String RunOutput :=
  if (harvest_urls env.net cfg).isEmpty then Except.ok ⟨[], []⟩
  else if stopAtStart stop then Except.ok ⟨[], []⟩
  else if cfg.checking_method.getD "auto" == "gsc"
      && py_truthy (matched_gsc_property env cfg) then
    (call_sc_check env ((matched_gsc_property env cfg).getD "") (limited_urls env cfg)).map
      (fun res => ⟨res, [⟨.gsc, limited_urls env cfg⟩]⟩)
  else if cfg.checking_method.getD "auto" == "indexed_api"
      && py_truthy cfg.indexed_api_key then
    Except.ok ⟨IndexedAPIChecker_check_indexation_status cfg.indexed_api_key
        (limited_urls env cfg),
      [⟨.indexedApi, limited_urls env cfg⟩]⟩
  else if cfg.checking_method.getD "auto" == "google_search" then
    Except.ok ⟨(google_search_loop_preferred env.google env.now (sigOf stop) 1
        (limited_urls env cfg)).1,
      [⟨.googleSearch, limited_urls env cfg⟩]⟩
  else
    auto_dispatch env cfg stop

/-! ## Spec-literal comparison definition -/

/-- Modelled from the spec: the literal reading of "the URL with its
trailing slash toggled (removed if present, appended if absent)" — exactly
one trailing slash removed. Set against the source's `gsc_alt_url`, which
strips every trailing slash. -/
def toggle_slash_spec (s : String) : String :=
  if strEndsWith s "/" then ⟨s.data.dropLast⟩ else s ++ "/"

/-! ## Sample data used to instantiate theorems on concrete runs -/

/-- A sample sitemap network: one direct sitemap with two page URLs, the
second carrying a trailing space in its `<loc>` text. -/
def sampleNet : SitemapNet := fun u =>
  if u = "https://example.com/sitemap.xml" then
    some ⟨[[("loc", "https://example.com/"), ("loc", "https://example.com/a ")]]⟩
  else none

/-- A sample environment with a working Search-Console client whose
reporting data covers the site root. -/
def sampleEnv : Env :=
  { net := sampleNet
    gscService := true
    gscProperties := ["https://example.com/"]
    gscQuery := fun _ => some ["https://example.com/"]
    google := fun _ => ("INDEXED", "Google Search")
    now := "2025-01-01 00:00:00" }

/-- The sample environment with the Search-Console client unavailable. -/
def sampleEnvNoGsc : Env := { sampleEnv with gscService := false }

/-- A sample configuration in auto mode with no bulk-API key. -/
def sampleCfg : Config :=
  { name := "Example"
    sitemap_url := none
    sitemap_urls := some ["https://example.com/sitemap.xml"]
    exclude_sitemaps := []
    max_urls := none
    indexed_api_key := none
    checking_method := none }

/-- The sample configuration with `checking_method` set to `indexed_api`
while no API key is configured. -/
def sampleCfgIndexedApi : Config := { sampleCfg with checking_method := some "indexed_api" }

/-- The sample configuration capped at one URL per run. -/
def sampleCfgMax1 : Config := { sampleCfg with max_urls := some 1 }

/-- A sample network for an index of three sub-sitemaps whose second
sub-sitemap fails to fetch. -/
def brokenSubNet : SitemapNet := fun u =>
  if u = "https://site.test/sitemap_index.xml" then
    some ⟨[[("loc", "https://site.test/s1.xml"), ("loc", "https://site.test/s2.xml"),
            ("loc", "https://site.test/s3.xml")]]⟩
  else if u = "https://site.test/s1.xml" then some ⟨[[("loc", "https://site.test/a")]]⟩
  else if u = "https://site.test/s3.xml" then some ⟨[[("loc", "https://site.test/c")]]⟩
  else none

/-! ## Helper lemmas -/

lemma strContains_empty_pat (s : String) : strContains s "" = true := by
  obtain ⟨d⟩ := s
  cases d with
  | nil => rfl
  | cons h t => rfl

lemma indexedApi_always_empty (k : Option String) (urls : List String) :
    IndexedAPIChecker_check_indexation_status k urls = [] := by
  cases k with
  | none => rfl
  | some s =>
    simp only [IndexedAPIChecker_check_indexation_status]
    split <;> [rfl; (split <;> rfl)]

lemma api_results_auto_empty (env : Env) (cfg : Config) :
    api_results_auto env cfg = [] := by
  unfold api_results_auto
  split
  · exact indexedApi_always_empty _ _
  · rfl

lemma sc_result_for_url (rows : List String) (now u : String) :
    (sc_result_for rows now u).url = pyStrip u := by
  simp only [sc_result_for]
  split <;> [rfl; (split <;> rfl)]

lemma find?_first {α : Type} (f : α → Bool) :
    ∀ (a : List α) (x : α) (b : List α),
      (∀ q ∈ a, f q = false) → f x = true → (a ++ x :: b).find? f = some x := by
  intro a
  induction a with
  | nil =>
    intro x b _ hx
    simpa [List.find?] using List.find?_cons_of_pos (l := b) hx
  | cons h t ih =>
    intro x b hall hx
    have hh : f h = false := hall h (by simp)
    have : ((h :: t) ++ x :: b).find? f = (t ++ x :: b).find? f := by
      simpa using List.find?_cons_of_neg (l := t ++ x :: b) (by simp [hh])
    rw [this]
    exact ih x b (fun q hq => hall q (by simp [hq])) hx

lemma google_search_loop_auto_mem (g : GoogleOracle) (now : String) (sig : CancelSig) :
    ∀ (i : Nat) (urls : List String) (r : CheckResult),
      r ∈ (google_search_loop_auto g now sig i urls).1 → ∃ u ∈ urls, r.url = u := by
  intro i urls
  induction urls generalizing i with
  | nil =>
    intro r h
    simp [google_search_loop_auto] at h
  | cons u rest ih =>
    intro r h
    by_cases hs : sig i
    · simp [google_search_loop_auto, hs] at h
    · simp only [google_search_loop_auto, hs, Bool.false_eq_true, if_false,
        List.mem_cons] at h
      rcases h with h | h
      · exact ⟨u, by simp, by rw [h]⟩
      · obtain ⟨v, hv, hr⟩ := ih (i + 1) r h
        exact ⟨v, by simp [hv], hr⟩

lemma google_search_loop_preferred_mem (g : GoogleOracle) (now : String) (sig : CancelSig) :
    ∀ (i : Nat) (urls : List String) (r : CheckResult),
      r ∈ (google_search_loop_preferred g now sig i urls).1 → ∃ u ∈ urls, r.url = u := by
  intro i urls
  induction urls generalizing i with
  | nil =>
    intro r h
    simp [google_search_loop_preferred] at h
  | cons u rest ih =>
    intro r h
    by_cases hs : sig i
    · simp [google_search_loop_preferred, hs] at h
    · simp only [google_search_loop_preferred, hs, Bool.false_eq_true, if_false,
        List.mem_cons] at h
      rcases h with h | h
      · exact ⟨u, by simp, by rw [h]⟩
      · obtain ⟨v, hv, hr⟩ := ih (i + 1) r h
        exact ⟨v, by simp [hv], hr⟩

lemma google_search_loop_auto_cutoff (g : GoogleOracle) (now : String) (k : Nat) :
    ∀ (i : Nat) (urls : List String),
      (google_search_loop_auto g now (fun j => decide (k < j)) i urls).1 =
        (urls.take (k + 1 - i)).map (fun u => ⟨u, (g u).1, (g u).2, now⟩) := by
  intro i urls
  induction urls generalizing i with
  | nil => simp [google_search_loop_auto]
  | cons u rest ih =>
    by_cases h : k < i
    · have h0 : k + 1 - i = 0 := by omega
      simp [google_search_loop_auto, h, h0]
    · have h2 : k + 1 - i = (k + 1 - (i + 1)) + 1 := by omega
      simp [google_search_loop_auto, h, h2, ih (i + 1)]

lemma google_search_loop_preferred_delays_blind (g g' : GoogleOracle)
    (now now' : String) (sig : CancelSig) :
    ∀ (i : Nat) (urls : List String),
      (google_search_loop_preferred g now sig i urls).2 =
        (google_search_loop_preferred g' now' sig i urls).2 := by
  intro i urls
  induction urls generalizing i with
  | nil => rfl
  | cons u rest ih =>
    by_cases hs : sig i
    · simp [google_search_loop_preferred, hs]
    · simp [google_search_loop_preferred, hs, ih (i + 1)]

lemma call_sc_check_error (env : Env) (site : String) (urls_ : List String) :
    call_sc_check env site urls_ = Except.error stopEventTypeError := by
  have hbind : pythonKwBindingOk scCheckParamNames gscCallSiteKwargNames = false := by
    decide
  simp [call_sc_check, hbind]

lemma check_as_auto (env : Env) (cfg : Config) (stop : Option Cancel)
    (hg : (cfg.checking_method.getD "auto" == "gsc"
      && py_truthy (matched_gsc_property env cfg)) = false)
    (hi : (cfg.checking_method.getD "auto" == "indexed_api"
      && py_truthy cfg.indexed_api_key) = false)
    (hs : (cfg.checking_method.getD "auto" == "google_search") = false) :
    check_website_indexation env cfg stop =
      if (harvest_urls env.net cfg).isEmpty then Except.ok ⟨[], []⟩
      else if stopAtStart stop then Except.ok ⟨[], []⟩
      else auto_dispatch env cfg stop := by
  unfold check_website_indexation
  rw [hg, hi, hs]
  simp

lemma auto_dispatch_matched_error (env : Env) (cfg : Config) (stop : Option Cancel)
    (hp : py_truthy (matched_gsc_property env cfg) = true) :
    auto_dispatch env cfg stop = Except.error stopEventTypeError := by
  simp [auto_dispatch, hp, call_sc_check_error, Except.map]

lemma auto_dispatch_unmatched (env : Env) (cfg : Config) (stop : Option Cancel)
    (hp : py_truthy (matched_gsc_property env cfg) = false) :
    auto_dispatch env cfg stop = Except.ok (auto_after_sc env cfg stop [] []) := by
  simp [auto_dispatch, hp]

lemma auto_after_sc_empty (env : Env) (cfg : Config) (stop : Option Cancel)
    (inv1 : List Invocation) :
    auto_after_sc env cfg stop [] inv1 =
      ⟨(google_search_loop_auto env.google env.now (sigOf stop) 1 (limited_urls env cfg)).1,
        auto_inv2_of env cfg inv1 ++ [⟨.googleSearch, limited_urls env cfg⟩]⟩ := by
  simp [auto_after_sc, api_results_auto_empty]

lemma auto_inv2_of_urls (env : Env) (cfg : Config) (inv1 : List Invocation)
    (h1 : ∀ inv ∈ inv1, inv.urls = limited_urls env cfg) :
    ∀ inv ∈ auto_inv2_of env cfg inv1, inv.urls = limited_urls env cfg := by
  intro inv h
  unfold auto_inv2_of at h
  split at h
  · rcases List.mem_append.mp h with h' | h'
    · exact h1 inv h'
    · simp at h'
      rw [h']
  · exact h1 inv h

lemma auto_after_sc_inv_urls (env : Env) (cfg : Config) (stop : Option Cancel)
    (scRes : List CheckResult) (inv1 : List Invocation)
    (h1 : ∀ inv ∈ inv1, inv.urls = limited_urls env cfg) :
    ∀ inv ∈ (auto_after_sc env cfg stop scRes inv1).invocations,
      inv.urls = limited_urls env cfg := by
  intro inv h
  unfold auto_after_sc at h
  split at h
  · exact h1 inv h
  split at h
  · exact auto_inv2_of_urls env cfg inv1 h1 inv h
  rcases List.mem_append.mp h with h' | h'
  · exact auto_inv2_of_urls env cfg inv1 h1 inv h'
  · simp at h'
    rw [h']

lemma check_inv_urls (env : Env) (cfg : Config) (stop : Option Cancel)
    (out : RunOutput) (hok : check_website_indexation env cfg stop = Except.ok out) :
    ∀ inv ∈ out.invocations, inv.urls = limited_urls env cfg := by
  intro inv h
  unfold check_website_indexation at hok
  split at hok
  · injection hok with hout
    subst hout
    simp at h
  split at hok
  · injection hok with hout
    subst hout
    simp at h
  split at hok
  · rw [call_sc_check_error] at hok
    simp [Except.map] at hok
  split at hok
  · injection hok with hout
    subst hout
    simp at h
    rw [h]
  split at hok
  · injection hok with hout
    subst hout
    simp at h
    rw [h]
  by_cases hp : py_truthy (matched_gsc_property env cfg) = true
  · rw [auto_dispatch_matched_error env cfg stop hp] at hok
    exact absurd hok (by simp)
  · have hp' : py_truthy (matched_gsc_property env cfg) = false := by
      cases hv : py_truthy (matched_gsc_property env cfg)
      · rfl
      · exact absurd hv hp
    rw [auto_dispatch_unmatched env cfg stop hp'] at hok
    injection hok with hout
    subst hout
    exact auto_after_sc_inv_urls env cfg stop [] [] (by simp) inv h

lemma limited_subset (env : Env) (cfg : Config) :
    ∀ u ∈ limited_urls env cfg, u ∈ harvest_urls env.net cfg := by
  intro u h
  simp only [limited_urls] at h
  split at h
  · exact List.take_subset _ _ h
  · exact h

/-! ## Claim theorems -/

/-- C3: the claim asserts every backend's check call accepts the shared
cancellation signal. The Search-Console backend does not:
`SearchConsoleChecker.check_indexation_status` declares only
`(self, site_url, urls_to_check, days_back)`, while both call sites in
`check_website_indexation` pass the keyword `stop_event=stop_event`, so
Python keyword binding fails (a `TypeError` is raised before the method
body runs) whenever that backend is dispatched; the bulk-API checker, by
contrast, does declare the parameter. -/
theorem c3_sc_stop_event_unbound :
    pythonKwBindingOk scCheckParamNames gscCallSiteKwargNames = false ∧
    pythonKwBindingOk indexedApiCheckParamNames gscCallSiteKwargNames = true := by
  decide

/-- C6: the sitemap harvesting functions fail softly. Any fetch or parse
error on a URL yields the empty list from both harvesting functions, and
when one sub-sitemap of an index fails, its contribution is empty while
every other sub-sitemap before and after it still contributes. -/
theorem c6_harvest_soft_failure (net : SitemapNet) (url : String)
    (excl : List String) (x : SitemapXml) (a b : List String) (bad : String)
    (hidx : net url = some x) (hsplit : sub_sitemaps x excl = a ++ bad :: b)
    (hbad : net bad = none) :
    (∀ u, net u = none →
      fetch_urls_from_sitemap net u = [] ∧ fetch_urls_from_sitemap_index net u excl = []) ∧
    fetch_urls_from_sitemap_index net url excl =
      (a.map (fetch_urls_from_sitemap net)).flatten ++
        (b.map (fetch_urls_from_sitemap net)).flatten := by
  constructor
  · intro u h
    constructor
    · simp [fetch_urls_from_sitemap, h]
    · simp [fetch_urls_from_sitemap_index, h]
  · simp only [fetch_urls_from_sitemap_index, hidx, hsplit, List.map_append,
      List.map_cons, List.flatten_append, List.flatten_cons]
    simp [fetch_urls_from_sitemap, hbad]

/-- C6 witness: an index of three sub-sitemaps whose middle one fails to
fetch still harvests the first and third sub-sitemaps' URLs. -/
theorem c6_harvest_soft_failure_witness :
    (∀ u, brokenSubNet u = none →
      fetch_urls_from_sitemap brokenSubNet u = [] ∧
      fetch_urls_from_sitemap_index brokenSubNet u [] = []) ∧
    fetch_urls_from_sitemap_index brokenSubNet "https://site.test/sitemap_index.xml" [] =
      (["https://site.test/s1.xml"].map (fetch_urls_from_sitemap brokenSubNet)).flatten ++
        (["https://site.test/s3.xml"].map (fetch_urls_from_sitemap brokenSubNet)).flatten :=
  c6_harvest_soft_failure brokenSubNet "https://site.test/sitemap_index.xml" []
    ⟨[[("loc", "https://site.test/s1.xml"), ("loc", "https://site.test/s2.xml"),
        ("loc", "https://site.test/s3.xml")]]⟩
    ["https://site.test/s1.xml"] ["https://site.test/s3.xml"] "https://site.test/s2.xml"
    (by decide) (by decide) (by decide)

/-- C7: cancellation boundary of the auto-mode Google-Search fallback loop.
With the signal becoming set after URL `k` is processed (observed false on
iterations 1..k and true from iteration k+1 on), the loop returns exactly
the records of the first `k` URLs — `min k n` of them on an `n`-URL list —
and queries the search oracle for no URL beyond that prefix. -/
theorem c7_cancellation_boundary (g : GoogleOracle) (now : String) (k : Nat)
    (urls : List String) :
    (google_search_loop_auto g now (fun j => decide (k < j)) 1 urls).1 =
      (urls.take k).map (fun u => ⟨u, (g u).1, (g u).2, now⟩) ∧
    ((google_search_loop_auto g now (fun j => decide (k < j)) 1 urls).1).length =
      min k urls.length := by
  have h := google_search_loop_auto_cutoff g now k 1 urls
  constructor
  · simpa using h
  · rw [h]
    simp [List.length_take]

/-- C8 counterexample: in the `google_search`-preferred per-URL loop the
slept delay is identical whether the status was RATE LIMITED or INDEXED
(the base 0.5 s / 2.0 s-every-20 schedule), so no path-wide "still-longer
delay immediately after any RATE_LIMITED response" exists. -/
theorem c8_preferred_no_backoff_counterexample :
    (google_search_loop_preferred (fun _ => ("RATE LIMITED", "Google Search (HTTP 429)"))
        "2025-01-01 00:00:00" (fun _ => false) 1
        ["https://example.com/a", "https://example.com/b"]).2 =
      (google_search_loop_preferred (fun _ => ("INDEXED", "Google Search"))
        "2025-01-01 00:00:00" (fun _ => false) 1
        ["https://example.com/a", "https://example.com/b"]).2 ∧
    (google_search_loop_preferred (fun _ => ("RATE LIMITED", "Google Search (HTTP 429)"))
        "2025-01-01 00:00:00" (fun _ => false) 1
        ["https://example.com/a", "https://example.com/b"]).2 = [5, 5] := by
  decide

/-- C8 amended: only the auto-mode fallback loop applies the adaptive,
escalating policy — 1.5 s base, 3 s every 10th request, 10 s immediately
after a RATE LIMITED status (units: tenths of a second) — while the
`google_search`-preferred loop's delays are status-independent (0.5 s base,
2 s every 20th request). -/
theorem c8_amended_delay_policy :
    (∀ s i, strContains s "RATE LIMITED" = true → auto_loop_delay s i = 100) ∧
    (∀ s i, strContains s "RATE LIMITED" = false → i % 10 = 0 → auto_loop_delay s i = 30) ∧
    (∀ s i, strContains s "RATE LIMITED" = false → i % 10 ≠ 0 → auto_loop_delay s i = 15) ∧
    (15 < 30 ∧ 30 < 100) ∧
    (∀ (g g' : GoogleOracle) (now now' : String) (sig : CancelSig) (i : Nat)
        (urls : List String),
      (google_search_loop_preferred g now sig i urls).2 =
        (google_search_loop_preferred g' now' sig i urls).2) ∧
    (∀ i, preferred_loop_delay i = 20 ∨ preferred_loop_delay i = 5) := by
  refine ⟨?_, ?_, ?_, ⟨by omega, by omega⟩, ?_, ?_⟩
  · intro s i h
    simp [auto_loop_delay, h]
  · intro s i h h10
    simp [auto_loop_delay, h, h10]
  · intro s i h h10
    have hb : (i % 10 == 0) = false := by simpa using h10
    simp [auto_loop_delay, h, hb]
  · intro g g' now now' sig i urls
    exact google_search_loop_preferred_delays_blind g g' now now' sig i urls
  · intro i
    by_cases h : i % 20 == 0
    · exact Or.inl (by simp [preferred_loop_delay, h])
    · exact Or.inr (by simp [preferred_loop_delay, h])

/-- C8 witness: the amended delay policy evaluated at concrete inputs —
a RATE LIMITED status at the first request sleeps 10 s in the auto loop,
an ordinary status sleeps 1.5 s, and the 10th ordinary request sleeps 3 s. -/
theorem c8_amended_delay_policy_witness :
    auto_loop_delay "RATE LIMITED" 1 = 100 ∧
    auto_loop_delay "INDEXED" 1 = 15 ∧
    auto_loop_delay "INDEXED" 10 = 30 :=
  ⟨c8_amended_delay_policy.1 "RATE LIMITED" 1 (by decide),
   c8_amended_delay_policy.2.2.1 "INDEXED" 1 (by decide) (by decide),
   c8_amended_delay_policy.2.1 "INDEXED" 10 (by decide) (by decide)⟩

/-- C10: a Search-Console property whose URL has an empty parsed netloc
(such as a `sc-domain:` property, not written as an http(s) URL) passes the
domain-match test for every website domain, because the empty string is a
substring of every string; consequently, when no property before it in the
property list matches, the matching loop selects it as the matched
property. -/
theorem c10_empty_netloc_matches_all (props : List String) (wd p : String)
    (a b : List String) (hsplit : props = a ++ p :: b)
    (hnet : get_base_domain p = "")
    (hpre : ∀ q ∈ a, gsc_property_match wd q = false) :
    gsc_property_match wd p = true ∧
    props.find? (gsc_property_match wd) = some p := by
  have hmatch : gsc_property_match wd p = true := by
    simp only [gsc_property_match, hnet]
    simp [strContains_empty_pat]
  refine ⟨hmatch, ?_⟩
  rw [hsplit]
  exact find?_first (gsc_property_match wd) a p b hpre hmatch

/-- C10 witness: the domain property `sc-domain:example.com` (empty parsed
netloc) matches the unrelated domain `foo.org` and is selected as the first
matching property. -/
theorem c10_empty_netloc_matches_all_witness :
    gsc_property_match "foo.org" "sc-domain:example.com" = true ∧
    ["sc-domain:example.com"].find? (gsc_property_match "foo.org") =
      some "sc-domain:example.com" :=
  c10_empty_netloc_matches_all ["sc-domain:example.com"] "foo.org"
    "sc-domain:example.com" [] [] rfl (by decide) (by simp)

/-- C1: the auto-mode `else` branch is written as the fallback cascade the
claim states (Search Console, then IndexedAPI on empty results, then the
Google-Search loop as backstop), and its log lines document that intent;
but whenever a Search-Console property matches, the run crashes instead of
falling back: the call at line 269 passes the undeclared keyword
`stop_event`, so the dispatch raises TypeError out of
`check_website_indexation` and no further backend is invoked. Evaluated
here at a concrete auto-mode run with a matched property and at an
auto-mode run without one (where the surviving part of the cascade does
reach the Google-Search backstop). -/
theorem c1_auto_matched_property_crashes :
    pythonKwBindingOk scCheckParamNames gscCallSiteKwargNames = false ∧
    py_truthy (matched_gsc_property sampleEnv sampleCfg) = true ∧
    check_website_indexation sampleEnv sampleCfg none =
      Except.error stopEventTypeError ∧
    check_website_indexation sampleEnvNoGsc sampleCfg none =
      Except.ok
        ⟨(google_search_loop_auto sampleEnvNoGsc.google sampleEnvNoGsc.now (sigOf none) 1
            (limited_urls sampleEnvNoGsc sampleCfg)).1,
          [⟨Backend.googleSearch, limited_urls sampleEnvNoGsc sampleCfg⟩]⟩ := by
  decide

/-- C2 counterexample: `checking_method` set to `indexed_api` with no API
key configured does not produce an empty run with no backend attempted —
the dispatcher falls into the auto-mode branch, invokes the Google-Search
backend and returns its non-empty results. -/
theorem c2_no_prereq_counterexample :
    ∃ out, check_website_indexation sampleEnvNoGsc sampleCfgIndexedApi none =
        Except.ok out ∧
      out.invocations ≠ [] ∧ out.results ≠ [] :=
  ⟨⟨[⟨"https://example.com/", "INDEXED", "Google Search", "2025-01-01 00:00:00"⟩,
     ⟨"https://example.com/a ", "INDEXED", "Google Search", "2025-01-01 00:00:00"⟩],
    [⟨Backend.googleSearch, ["https://example.com/", "https://example.com/a "]⟩]⟩,
   by decide, by decide, by decide⟩

/-- C2 amended: when a non-auto checking method is explicitly selected but
its prerequisite is absent (`gsc` with no truthy matched property, or
`indexed_api` with no truthy API key), the run behaves exactly as if
`checking_method` were `auto`: it falls through to the auto-mode fallback
cascade instead of attempting nothing. -/
theorem c2_amended_fallthrough_to_auto (env : Env) (cfg : Config) (stop : Option Cancel)
    (h : (cfg.checking_method.getD "auto" = "gsc" ∧
            py_truthy (matched_gsc_property env cfg) = false) ∨
         (cfg.checking_method.getD "auto" = "indexed_api" ∧
            py_truthy cfg.indexed_api_key = false)) :
    check_website_indexation env cfg stop =
      check_website_indexation env { cfg with checking_method := some "auto" } stop := by
  have hR := check_as_auto env { cfg with checking_method := some "auto" } stop rfl rfl rfl
  rcases h with ⟨hm, hp⟩ | ⟨hm, hk⟩
  · have hL := check_as_auto env cfg stop
      (by rw [hm, hp]; rfl) (by rw [hm]; rfl) (by rw [hm]; rfl)
    rw [hL, hR]
    rfl
  · have hL := check_as_auto env cfg stop
      (by rw [hm]; rfl) (by rw [hm, hk]; rfl) (by rw [hm]; rfl)
    rw [hL, hR]
    rfl

/-- C2 witness: the concrete `indexed_api`-without-key run equals the same
run with `checking_method` replaced by `auto`. -/
theorem c2_amended_fallthrough_to_auto_witness :
    check_website_indexation sampleEnvNoGsc sampleCfgIndexedApi none =
      check_website_indexation sampleEnvNoGsc
        { sampleCfgIndexedApi with checking_method := some "auto" } none :=
  c2_amended_fallthrough_to_auto sampleEnvNoGsc sampleCfgIndexedApi none
    (Or.inr ⟨rfl, rfl⟩)

/-- C5: truncation law. Every backend invocation of a run receives exactly
the first `max_urls` harvested URLs (in harvest order) when the harvest
exceeds the cap, and the unchanged harvested list otherwise; no URL beyond
that prefix reaches any backend. -/
theorem c5_truncation (env : Env) (cfg : Config) (stop : Option Cancel)
    (out : RunOutput) (inv : Invocation)
    (hok : check_website_indexation env cfg stop = Except.ok out)
    (hmem : inv ∈ out.invocations) :
    ((harvest_urls env.net cfg).length > cfg.max_urls.getD 100 →
      inv.urls = (harvest_urls env.net cfg).take (cfg.max_urls.getD 100)) ∧
    ((harvest_urls env.net cfg).length ≤ cfg.max_urls.getD 100 →
      inv.urls = harvest_urls env.net cfg) := by
  have h := check_inv_urls env cfg stop out hok inv hmem
  constructor
  · intro hgt
    rw [h]
    simp only [limited_urls]
    simp [hgt]
  · intro hle
    rw [h]
    simp only [limited_urls]
    have : ¬ (harvest_urls env.net cfg).length > cfg.max_urls.getD 100 := by omega
    simp [this]

/-- C5 witness: with `max_urls = 1` and a two-URL harvest, the invoked
backend receives exactly the first harvested URL. -/
theorem c5_truncation_witness :
    (⟨Backend.googleSearch, ["https://example.com/"]⟩ : Invocation).urls =
      (harvest_urls sampleEnvNoGsc.net sampleCfgMax1).take
        (sampleCfgMax1.max_urls.getD 100) :=
  (c5_truncation sampleEnvNoGsc sampleCfgMax1 none
    ⟨[⟨"https://example.com/", "INDEXED", "Google Search", "2025-01-01 00:00:00"⟩],
     [⟨Backend.googleSearch, ["https://example.com/"]⟩]⟩
    ⟨Backend.googleSearch, ["https://example.com/"]⟩
    (by decide) (by decide)).1 (by decide)

/-- C4 counterexample: for a URL ending in two slashes the source's
`rstrip('/')` removes both, so the claim's "trailing slash toggled
(removed if present)" reading fails: the toggled URL
`https://example.com/page/` is in the reporting set, so the claim predicts
INDEXED, but the code probes `https://example.com/page` instead and
reports NOT IN SEARCH CONSOLE DATA. -/
theorem c4_toggle_counterexample :
    pyStrip "https://example.com/page//" = "https://example.com/page//" ∧
    toggle_slash_spec "https://example.com/page//" = "https://example.com/page/" ∧
    ["https://example.com/page/"].contains
      (toggle_slash_spec "https://example.com/page//") = true ∧
    ["https://example.com/page/"].contains "https://example.com/page//" = false ∧
    gsc_alt_url "https://example.com/page//" = "https://example.com/page" ∧
    (sc_result_for ["https://example.com/page/"] "2025-01-01 00:00:00"
      "https://example.com/page//").status = "NOT IN SEARCH CONSOLE DATA" := by
  decide

/-- C4 amended: the Search-Console backend classifies each input URL, in
input order and one record per URL, by: stripped URL in the reporting set →
INDEXED ("Search Console Data"); otherwise its alternate URL — all trailing
slashes removed when the URL ends in a slash, else a slash appended — in
the set → INDEXED ("Search Console Data (alt URL)"); otherwise
NOT IN SEARCH CONSOLE DATA. -/
theorem c4_amended_alt_url (q : GscQuery) (site now : String) (urls rows : List String)
    (hq : q site = some rows) (i : Nat) (h : i < urls.length) :
    (SearchConsoleChecker_check_indexation_status true q site urls now).length =
      urls.length ∧
    ∃ u r, urls[i]? = some u ∧
      (SearchConsoleChecker_check_indexation_status true q site urls now)[i]? = some r ∧
      r.url = pyStrip u ∧
      (rows.contains (pyStrip u) = true →
        r.status = "INDEXED" ∧ r.method = "Search Console Data") ∧
      (rows.contains (pyStrip u) = false → rows.contains (gsc_alt_url (pyStrip u)) = true →
        r.status = "INDEXED" ∧ r.method = "Search Console Data (alt URL)") ∧
      (rows.contains (pyStrip u) = false → rows.contains (gsc_alt_url (pyStrip u)) = false →
        r.status = "NOT IN SEARCH CONSOLE DATA" ∧ r.method = "Search Console Data") := by
  have hdef : SearchConsoleChecker_check_indexation_status true q site urls now =
      urls.map (sc_result_for rows now) := by
    unfold SearchConsoleChecker_check_indexation_status
    rw [hq]
    rfl
  rw [hdef]
  refine ⟨by simp, urls.get ⟨i, h⟩, sc_result_for rows now (urls.get ⟨i, h⟩),
    ?_, ?_, sc_result_for_url rows now _, ?_, ?_, ?_⟩
  · simp [List.getElem?_eq_getElem h]
  · simp [List.getElem?_map, List.getElem?_eq_getElem h]
  · intro hc
    have hc' : pyStrip urls[i] ∈ rows := by simpa using hc
    simp [sc_result_for, hc']
  · intro hc ha
    have hc' : pyStrip urls[i] ∉ rows := by simpa using hc
    have ha' : gsc_alt_url (pyStrip urls[i]) ∈ rows := by simpa using ha
    simp [sc_result_for, hc', ha']
  · intro hc ha
    have hc' : pyStrip urls[i] ∉ rows := by simpa using hc
    have ha' : gsc_alt_url (pyStrip urls[i]) ∉ rows := by simpa using ha
    simp [sc_result_for, hc', ha']

/-- C4 witness: a URL absent from the reporting set whose slash-appended
alternate is present is classified INDEXED via the alt-URL path. -/
theorem c4_amended_alt_url_witness :
    ((SearchConsoleChecker_check_indexation_status true
        (fun _ => some ["https://example.com/a/"]) "https://example.com/"
        ["https://example.com/a"] "2025-01-01 00:00:00").length = 1 ∧
    ∃ u r, (["https://example.com/a"] : List String)[0]? = some u ∧
      (SearchConsoleChecker_check_indexation_status true
        (fun _ => some ["https://example.com/a/"]) "https://example.com/"
        ["https://example.com/a"] "2025-01-01 00:00:00")[0]? = some r ∧
      r.url = pyStrip u ∧
      ((["https://example.com/a/"] : List String).contains (pyStrip u) = true →
        r.status = "INDEXED" ∧ r.method = "Search Console Data") ∧
      ((["https://example.com/a/"] : List String).contains (pyStrip u) = false →
        (["https://example.com/a/"] : List String).contains (gsc_alt_url (pyStrip u)) = true →
        r.status = "INDEXED" ∧ r.method = "Search Console Data (alt URL)") ∧
      ((["https://example.com/a/"] : List String).contains (pyStrip u) = false →
        (["https://example.com/a/"] : List String).contains (gsc_alt_url (pyStrip u)) = false →
        r.status = "NOT IN SEARCH CONSOLE DATA" ∧ r.method = "Search Console Data")) :=
  c4_amended_alt_url (fun _ => some ["https://example.com/a/"]) "https://example.com/"
    "2025-01-01 00:00:00" ["https://example.com/a"] ["https://example.com/a/"]
    rfl 0 (by decide)

/-- C9: every CheckResult of a completed run carries a url taken verbatim
from the harvested URL list of that run. The only result-producing paths
of the pipeline are the Google-Search loops, which record each URL of (a
prefix of) the checked list unmodified, and the IndexedAPI stub, which
returns no records; the Search-Console backend — which would record a
whitespace-stripped URL — always raises TypeError when dispatched from
this pipeline (unbound `stop_event` keyword) and so never contributes a
record to any run. -/
theorem c9_url_provenance (env : Env) (cfg : Config) (stop : Option Cancel)
    (out : RunOutput) (r : CheckResult)
    (hok : check_website_indexation env cfg stop = Except.ok out)
    (hr : r ∈ out.results) :
    ∃ u ∈ harvest_urls env.net cfg, r.url = u := by
  have lift := limited_subset env cfg
  unfold check_website_indexation at hok
  split at hok
  · injection hok with hout
    subst hout
    simp at hr
  split at hok
  · injection hok with hout
    subst hout
    simp at hr
  split at hok
  · rw [call_sc_check_error] at hok
    simp [Except.map] at hok
  split at hok
  · injection hok with hout
    subst hout
    rw [indexedApi_always_empty] at hr
    simp at hr
  split at hok
  · injection hok with hout
    subst hout
    obtain ⟨u, hu, hru⟩ := google_search_loop_preferred_mem _ _ _ 1 _ r hr
    exact ⟨u, lift u hu, hru⟩
  by_cases hp : py_truthy (matched_gsc_property env cfg) = true
  · rw [auto_dispatch_matched_error env cfg stop hp] at hok
    exact absurd hok (by simp)
  · have hp' : py_truthy (matched_gsc_property env cfg) = false := by
      cases hv : py_truthy (matched_gsc_property env cfg)
      · rfl
      · exact absurd hv hp
    rw [auto_dispatch_unmatched env cfg stop hp'] at hok
    injection hok with hout
    subst hout
    rw [auto_after_sc_empty] at hr
    obtain ⟨u, hu, hru⟩ := google_search_loop_auto_mem _ _ _ 1 _ r hr
    exact ⟨u, lift u hu, hru⟩

/-- C9 witness: a record of a concrete completed run (auto mode falling
through to the Google-Search backend) carries a url that is one of the
harvested strings verbatim. -/
theorem c9_url_provenance_witness :
    ∃ u ∈ harvest_urls sampleEnvNoGsc.net sampleCfg,
      (⟨"https://example.com/a ", "INDEXED", "Google Search",
        "2025-01-01 00:00:00"⟩ : CheckResult).url = u :=
  c9_url_provenance sampleEnvNoGsc sampleCfg none
    ⟨[⟨"https://example.com/", "INDEXED", "Google Search", "2025-01-01 00:00:00"⟩,
      ⟨"https://example.com/a ", "INDEXED", "Google Search", "2025-01-01 00:00:00"⟩],
     [⟨Backend.googleSearch, ["https://example.com/", "https://example.com/a "]⟩]⟩
    ⟨"https://example.com/a ", "INDEXED", "Google Search", "2025-01-01 00:00:00"⟩
    (by decide) (by decide)

end SeoIdx

